import Mathlib

/-!
Verification development for the Study Buddy agent (`src/tools.ts`,
`src/server.ts`): a shallow embedding of the two SQLite tables, the four
study tools, the input validation boundary, the bounded generation loop
and the message sanitizer, together with theorems about them.

Machine numbers from the JavaScript side are modelled as exact rationals
(`ℚ`); SQLite `INTEGER` cells as `Nat`; nullable cells as `Option`.
A fallible `INSERT` (the storage substrate throwing) is modelled by a
Boolean oracle `insertOk` supplied per call, since whether the substrate
throws is external to the program.
-/

namespace StudyBuddy

/-- Difficulty levels accepted by the `generateQuiz` zod enum
(`src/tools.ts` lines 19-22). -/
inductive Difficulty
  | easy
  | medium
  | hard
deriving DecidableEq, Repr

def Difficulty.toStr : Difficulty → String
  | .easy => "easy"
  | .medium => "medium"
  | .hard => "hard"

/-- A row of the `study_sessions` table (`src/server.ts`): `id TEXT PRIMARY
KEY, topic TEXT NOT NULL`.  The `created_at` column (defaulted timestamp)
is not modelled: no claim depends on it. -/
structure SessionRow where
  id : String
  topic : String
deriving DecidableEq, Repr

/-- A row of the `quiz_results` table (`src/server.ts`): `is_correct` is an
`INTEGER` written as 0/1 by the tools, `explanation` is nullable; the
`created_at` column is not modelled. -/
structure ResultRow where
  id : String
  session_id : String
  question : String
  user_answer : String
  correct_answer : String
  is_correct : Nat
  explanation : Option String
deriving DecidableEq, Repr

/-- The durable state of one agent instance: the two tables, each a list of
rows in insertion order. -/
structure DB where
  study_sessions : List SessionRow
  quiz_results : List ResultRow
deriving DecidableEq, Repr

/-! ## generateQuiz (`src/tools.ts` lines 14-58) -/

/-- The instruction string returned by `generateQuiz`
(`src/tools.ts` lines 51-55). -/
def genQuizInstruction (topic : String) (difficulty : Difficulty)
    (numberOfQuestions : ℚ) : String :=
  "Generate " ++ toString numberOfQuestions ++ " " ++ difficulty.toStr ++
  " quiz questions about \"" ++ topic ++ "\".\n" ++
  "      Mix question types: multiple choice, true/false, and short answer.\n" ++
  "      For multiple choice, always provide 4 options (A, B, C, D).\n" ++
  "      Present questions ONE AT A TIME and wait for the student's answer before proceeding.\n" ++
  "      After each answer, use the checkAnswer tool to evaluate and saveProgress to record the result."

/-- The payload `generateQuiz` returns (`src/tools.ts` lines 46-56). -/
structure GenQuizOutput where
  sessionId : String
  topic : String
  difficulty : Difficulty
  numberOfQuestions : ℚ
  instruction : String
deriving DecidableEq, Repr

/-- `generateQuiz.execute` (`src/tools.ts` lines 30-57): generates a fresh
`sessionId` (supplied here as a parameter, since `generateId()` is an
external source of fresh identifiers), tries to `INSERT` one
`study_sessions` row, catches and logs any persistence error, and returns
the payload either way. -/
def generateQuiz (db : DB) (topic : String) (difficulty : Difficulty)
    (numberOfQuestions : ℚ) (sessionId : String) (insertOk : Bool) :
    DB × GenQuizOutput :=
  let db' :=
    if insertOk then
      { db with study_sessions := db.study_sessions ++ [⟨sessionId, topic⟩] }
    else
      db
  (db',
   { sessionId := sessionId
     topic := topic
     difficulty := difficulty
     numberOfQuestions := numberOfQuestions
     instruction := genQuizInstruction topic difficulty numberOfQuestions })

/-! ## checkAnswer (`src/tools.ts` lines 64-105) -/

/-- The payload `checkAnswer` returns (`src/tools.ts` lines 95-103). -/
structure CheckAnswerOutput where
  resultId : String
  isCorrect : Bool
  studentAnswer : String
  correctAnswer : String
  instruction : String
deriving DecidableEq, Repr

/-- `checkAnswer.execute` (`src/tools.ts` lines 74-104): converts
`isCorrect` to 0/1, tries to `INSERT` one `quiz_results` row (without an
`explanation` column, so it defaults to NULL), catches and logs any
persistence error, and returns the payload either way. -/
def checkAnswer (db : DB) (sessionId question studentAnswer correctAnswer : String)
    (isCorrect : Bool) (resultId : String) (insertOk : Bool) :
    DB × CheckAnswerOutput :=
  let isCorrectInt : Nat := if isCorrect then 1 else 0
  let db' :=
    if insertOk then
      { db with quiz_results := db.quiz_results ++
          [⟨resultId, sessionId, question, studentAnswer, correctAnswer,
            isCorrectInt, none⟩] }
    else
      db
  (db',
   { resultId := resultId
     isCorrect := isCorrect
     studentAnswer := studentAnswer
     correctAnswer := correctAnswer
     instruction :=
       if isCorrect then
         "The student got it right! Congratulate them and provide any additional interesting facts about this topic."
       else
         "The student got it wrong. Kindly explain why the correct answer is right and help them understand the concept better. Offer a memory trick if applicable." })

/-! ## getStudyStats (`src/tools.ts` lines 111-224) -/

/-- ASCII lower-casing, as used by SQLite `LIKE` (case-insensitive for
ASCII only by default). -/
def asciiLower (c : Char) : Char :=
  if 'A' ≤ c ∧ c ≤ 'Z' then Char.ofNat (c.toNat + 32) else c

/-- `beginsWith hay needle` : does `hay` start with `needle`? -/
def beginsWith : List Char → List Char → Bool
  | _, [] => true
  | [], _ :: _ => false
  | b :: hs, a :: ns => a == b && beginsWith hs ns

/-- `hasSub hay needle` : does `needle` occur contiguously in `hay`? -/
def hasSub : List Char → List Char → Bool
  | [], needle => needle.isEmpty
  | b :: hs, needle => beginsWith (b :: hs) needle || hasSub hs needle

/-- SQLite `s LIKE '%pattern%'` with the default case-insensitive ASCII
collation, as issued by `getStudyStats` with `topicPattern`
(`src/tools.ts` lines 166-172). -/
def likeContains (pattern s : String) : Bool :=
  hasSub (s.data.map asciiLower) (pattern.data.map asciiLower)

/-- The join `FROM quiz_results r JOIN study_sessions s ON r.session_id =
s.id WHERE s.topic LIKE '%topic%'` (`src/tools.ts` lines 167-173), as the
list of matching row pairs; `COUNT(*)` is its length. -/
def topicJoin (db : DB) (topic : String) : List (ResultRow × SessionRow) :=
  db.quiz_results.flatMap fun r =>
    (db.study_sessions.filter fun s =>
      r.session_id == s.id && likeContains topic s.topic).map fun s => (r, s)

/-- JavaScript `Math.round`: round half toward positive infinity. -/
def jsRound (x : ℚ) : ℤ := ⌊x + 1 / 2⌋

/-- The topic-scoped aggregate of `getStudyStats`
(`src/tools.ts` lines 175-183). -/
structure TopicStats where
  topic : String
  totalQuestions : Nat
  correctAnswers : Nat
  accuracy : ℤ
deriving DecidableEq, Repr

/-- The overall aggregate of `getStudyStats` (`src/tools.ts` lines 192-196). -/
structure OverallStats where
  totalQuestionsAnswered : Nat
  correctAnswers : Nat
  accuracy : ℤ
deriving DecidableEq, Repr

/-- The payload `getStudyStats` returns on the success path
(`src/tools.ts` lines 191-214).  The presentation-only `topicsStudied` and
`recentSessions` lists are not modelled: no claim depends on them. -/
structure StatsOutput where
  overall : OverallStats
  topicStats : Option TopicStats
  instruction : String
deriving DecidableEq, Repr

/-- `getStudyStats.execute`, success path (`src/tools.ts` lines 122-214):
overall counts query `quiz_results` alone; the topic aggregate (computed
only when `topic` is truthy, so a missing or empty topic yields `null`)
joins `quiz_results` with `study_sessions` under the `LIKE` filter.
`SUM(...)` over an empty join is SQL NULL, coerced to 0 by `|| 0` in the
source; here the empty count is 0 directly. -/
def getStudyStats (db : DB) (topic : Option String) : StatsOutput :=
  let totalQuestions := db.quiz_results.length
  let correctAnswers := (db.quiz_results.filter fun r => r.is_correct == 1).length
  let topicStats : Option TopicStats :=
    match topic with
    | none => none
    | some t =>
      if t = "" then none
      else
        let j := topicJoin db t
        let total := j.length
        let correct := (j.filter fun p => p.1.is_correct == 1).length
        some
          { topic := t
            totalQuestions := total
            correctAnswers := correct
            accuracy :=
              if total > 0 then jsRound ((correct : ℚ) / (total : ℚ) * 100) else 0 }
  let overallAccuracy : ℤ :=
    if totalQuestions > 0 then
      jsRound ((correctAnswers : ℚ) / (totalQuestions : ℚ) * 100)
    else 0
  { overall :=
      { totalQuestionsAnswered := totalQuestions
        correctAnswers := correctAnswers
        accuracy := overallAccuracy }
    topicStats := topicStats
    instruction :=
      "Present these statistics in a friendly, encouraging way. Highlight improvements and suggest topics that might need more practice." }

/-! ## saveProgress (`src/tools.ts` lines 230-276) -/

/-- The payload `saveProgress` returns: `{success: true, resultId, message}`
on a successful insert, `{success: false, error}` when the insert throws
(`src/tools.ts` lines 263-274). -/
inductive SaveProgressOutput
  | ok (resultId : String) (message : String)
  | failed (error : String)
deriving DecidableEq, Repr

/-- JavaScript `explanation || null` (`src/tools.ts` line 255): any falsy
explanation — absent or the empty string — is coerced to null. -/
def explanationValue : Option String → Option String
  | none => none
  | some s => if s = "" then none else some s

/-- `saveProgress.execute` (`src/tools.ts` lines 244-275): converts
`isCorrect` to 0/1, coerces a falsy explanation to null, tries to `INSERT`
one `quiz_results` row, and reports the outcome structurally. -/
def saveProgress (db : DB) (sessionId question userAnswer correctAnswer : String)
    (isCorrect : Bool) (explanation : Option String) (resultId : String)
    (insertOk : Bool) : DB × SaveProgressOutput :=
  let isCorrectInt : Nat := if isCorrect then 1 else 0
  let expl := explanationValue explanation
  if insertOk then
    ({ db with quiz_results := db.quiz_results ++
        [⟨resultId, sessionId, question, userAnswer, correctAnswer,
          isCorrectInt, expl⟩] },
     .ok resultId "Progress saved successfully")
  else
    (db, .failed "Failed to save progress")

/-! ## The input-validation boundary of generateQuiz
(`src/tools.ts` lines 17-29): the zod schema
`{ topic: z.string(), difficulty: z.enum(["easy","medium","hard"]).default("medium"),
numberOfQuestions: z.number().min(1).max(10).default(5) }`.
Raw JSON values are modelled with numbers as exact rationals. -/

/-- A raw JSON value arriving at the tool boundary. -/
inductive JVal
  | jstr (s : String)
  | jnum (q : ℚ)
  | jbool (b : Bool)
  | jnull
deriving DecidableEq, Repr

/-- The raw arguments object for `generateQuiz`: each field either absent
(`none`, JSON `undefined`) or some JSON value. -/
structure RawGenQuizArgs where
  topic : Option JVal
  difficulty : Option JVal
  numberOfQuestions : Option JVal
deriving DecidableEq, Repr

/-- The parsed arguments `execute` receives when validation succeeds.
`numberOfQuestions` is a rational because `z.number().min(1).max(10)`
checks only the numeric range, not integrality. -/
structure GenQuizArgs where
  topic : String
  difficulty : Difficulty
  numberOfQuestions : ℚ
deriving DecidableEq, Repr

/-- `z.enum(["easy","medium","hard"])` on a present value. -/
def parseDifficulty : JVal → Option Difficulty
  | .jstr "easy" => some .easy
  | .jstr "medium" => some .medium
  | .jstr "hard" => some .hard
  | _ => none

/-- `z.enum(["easy","medium","hard"]).default("medium")`: the default
applies when the field is absent; a present value must be an enum string. -/
def parseDifficultyField : Option JVal → Option Difficulty
  | none => some .medium
  | some v => parseDifficulty v

/-- `z.number().min(1).max(10).default(5)`: the default applies when the
field is absent; a present value must be a number `n` with `1 ≤ n ≤ 10`
(no integrality check). -/
def parseNumberOfQuestions : Option JVal → Option ℚ
  | none => some 5
  | some (.jnum q) => if 1 ≤ q ∧ q ≤ 10 then some q else none
  | some _ => none

/-- The zod validation of `generateQuiz` input: `none` means the input is
rejected before `execute` runs. `topic` must be a string and the other two
fields must each pass their own parser. -/
def validateGenQuiz : RawGenQuizArgs → Option GenQuizArgs
  | ⟨topicRaw, diffRaw, numRaw⟩ =>
    match topicRaw, parseDifficultyField diffRaw, parseNumberOfQuestions numRaw with
    | some (.jstr t), some d, some n => some ⟨t, d, n⟩
    | _, _, _ => none

/-! ## Sequences of tool invocations -/

/-- One invocation of one of the four tools, with its validated input, the
fresh identifier drawn from `generateId()` where the tool draws one, and
the insert-success oracle where the tool writes. -/
inductive ToolCall
  | genQuiz (topic : String) (difficulty : Difficulty) (numberOfQuestions : ℚ)
      (sessionId : String) (insertOk : Bool)
  | checkAns (sessionId question studentAnswer correctAnswer : String)
      (isCorrect : Bool) (resultId : String) (insertOk : Bool)
  | getStats (topic : Option String)
  | saveProg (sessionId question userAnswer correctAnswer : String)
      (isCorrect : Bool) (explanation : Option String) (resultId : String)
      (insertOk : Bool)
deriving DecidableEq, Repr

/-- The effect of one tool invocation on the durable state.  `getStudyStats`
only issues `SELECT`s, so its step leaves the state unchanged. -/
def stepTool (db : DB) : ToolCall → DB
  | .genQuiz t d n sid ok => (generateQuiz db t d n sid ok).1
  | .checkAns sid q sa ca ic rid ok => (checkAnswer db sid q sa ca ic rid ok).1
  | .getStats _ => db
  | .saveProg sid q ua ca ic ex rid ok => (saveProgress db sid q ua ca ic ex rid ok).1

/-- Run a sequence of tool invocations from a state. -/
def runTools (db : DB) : List ToolCall → DB
  | [] => db
  | c :: cs => runTools (stepTool db c) cs

/-- Does this invocation successfully insert a `study_sessions` row? -/
def insertsSession : ToolCall → Bool
  | .genQuiz _ _ _ _ ok => ok
  | _ => false

/-- Does this invocation successfully insert a `quiz_results` row? -/
def insertsResult : ToolCall → Bool
  | .checkAns _ _ _ _ _ _ ok => ok
  | .saveProg _ _ _ _ _ _ _ ok => ok
  | _ => false

/-! ## The bounded generation loop

Modelled from the spec: the step loop of `streamText` behind
`onChatMessage` (`src/server.ts`) is library code not present under
`src/`; only its configuration `stopWhen: stepCountIs(10)` is.  Per the
spec, a step is one engine-decided unit of either emitting text or
invoking one tool, and the loop terminates the turn once 10 steps have
elapsed even if the engine would continue; exhaustion of the budget is a
normal completion, not an error. -/

/-- One engine-decided step: emit text or invoke one tool. -/
inductive EngineStep
  | emitText (s : String)
  | callTool (name : String)
deriving DecidableEq, Repr

/-- How a turn ends.  Both constructors are normal completions: the model
has no error outcome for budget exhaustion. -/
inductive TurnEnd
  | engineDone
  | budgetExhausted
deriving DecidableEq, Repr

/-- Modelled from the spec: run the generation loop with `fuel` remaining
steps, querying the engine (a function from the step index to its decision,
`none` meaning the engine signals completion) at successive indices.
Returns the executed steps in order and how the turn ended. -/
def runTurn (engine : Nat → Option EngineStep) : Nat → Nat → List EngineStep × TurnEnd
  | 0, _ => ([], .budgetExhausted)
  | fuel + 1, idx =>
    match engine idx with
    | none => ([], .engineDone)
    | some st =>
      let rest := runTurn engine fuel (idx + 1)
      (st :: rest.1, rest.2)

/-- Modelled from the spec: one chat turn's generation phase with the hard
step budget of 10 configured in `src/server.ts` (`stopWhen: stepCountIs(10)`). -/
def onChatMessageSteps (engine : Nat → Option EngineStep) : List EngineStep × TurnEnd :=
  runTurn engine 10 0

/-! ## The message sanitizer

Modelled from the spec: `cleanupMessages` lives in `src/utils.ts`, which is
not present under `src/`; the spec describes it as purely structural —
it detects and strips messages representing a tool invocation that began
(a call was requested) but never completed (no matching result was
recorded), never alters completed exchanges, and never reorders. -/

/-- One part of a chat message: plain text, or a tool invocation that either
has a recorded result (`hasResult = true`) or was left incomplete. -/
inductive MsgPart
  | text (s : String)
  | toolCall (id : String) (hasResult : Bool)
deriving DecidableEq, Repr

/-- A chat message: a role and an ordered list of parts. -/
structure ChatMsg where
  role : String
  parts : List MsgPart
deriving DecidableEq, Repr

/-- A part witnessing a tool invocation that began but never completed. -/
def partIncomplete : MsgPart → Bool
  | .toolCall _ hasResult => !hasResult
  | .text _ => false

/-- A message left in an inconsistent state by an interrupted turn. -/
def msgIncomplete (m : ChatMsg) : Bool := m.parts.any partIncomplete

/-- Modelled from the spec: the sanitizer strips the messages containing an
incomplete tool invocation and keeps everything else untouched, in order. -/
def cleanupMessages (h : List ChatMsg) : List ChatMsg :=
  h.filter fun m => !msgIncomplete m

/-! ## Spec-side formulas for refinement comparison -/

/-- Defined from the spec's words, for comparison with the embedding:
`accuracy = round(100*correct/total)` when `total > 0`, and `0` when
`total = 0`, with `round` half-up as JavaScript rounds. -/
def specAccuracy (correct total : Nat) : ℤ :=
  if total > 0 then ⌊100 * (correct : ℚ) / (total : ℚ) + 1 / 2⌋ else 0

/-- The number of `quiz_results` rows with `is_correct = 1` (the
`SELECT COUNT(*) ... WHERE is_correct = 1` of `src/tools.ts` line 132). -/
def correctCount (db : DB) : Nat :=
  (db.quiz_results.filter fun r => r.is_correct == 1).length

end StudyBuddy

namespace StudyBuddy

/-- C1: for every state of the `quiz_results` table, `getStudyStats` reports
`overall.accuracy = round(100*correct/total)` when `total > 0` and `0` when
`total = 0`; the topic-scoped aggregate applies the same formula to its own
counts; and the spec's example holds: 7 total, 5 correct gives 71. -/
theorem getStudyStats_accuracy_formula (db : DB) (topic : Option String) :
    (getStudyStats db topic).overall.accuracy =
      specAccuracy (correctCount db) db.quiz_results.length ∧
    (∀ ts, (getStudyStats db topic).topicStats = some ts →
      ts.accuracy = specAccuracy ts.correctAnswers ts.totalQuestions) ∧
    specAccuracy 5 7 = 71 := by
  have key : ∀ c t : Nat,
      jsRound ((c : ℚ) / (t : ℚ) * 100) = ⌊100 * (c : ℚ) / (t : ℚ) + 1 / 2⌋ := by
    intro c t
    unfold jsRound
    congr 1
    ring
  refine ⟨?_, ?_, ?_⟩
  · simp only [getStudyStats, specAccuracy, correctCount]
    split
    · rw [key]
    · rfl
  · intro ts hts
    simp only [getStudyStats] at hts
    cases topic with
    | none => simp at hts
    | some t =>
      by_cases ht : t = ""
      · simp [ht] at hts
      · simp only [ht, if_false] at hts
        obtain rfl := Option.some_injective _ hts
        simp only [specAccuracy]
        split
        · rw [key]
        · rfl
  · simp only [specAccuracy]
    norm_num

/-- A concrete database with 7 answered questions, 5 of them correct. -/
def dbSevenFive : DB :=
  ⟨[⟨"s1", "Math"⟩],
   [⟨"r1", "s1", "q1", "a", "a", 1, none⟩,
    ⟨"r2", "s1", "q2", "a", "a", 1, none⟩,
    ⟨"r3", "s1", "q3", "a", "a", 1, none⟩,
    ⟨"r4", "s1", "q4", "a", "a", 1, none⟩,
    ⟨"r5", "s1", "q5", "a", "a", 1, none⟩,
    ⟨"r6", "s1", "q6", "a", "b", 0, none⟩,
    ⟨"r7", "s1", "q7", "a", "b", 0, none⟩]⟩

/-- Witness for C1 at a concrete state: with 7 results of which 5 are
correct, the reported overall accuracy is 71. -/
theorem getStudyStats_accuracy_formula_witness :
    (getStudyStats dbSevenFive none).overall.accuracy = 71 := by
  have h := getStudyStats_accuracy_formula dbSevenFive none
  rw [h.1]
  rw [show correctCount dbSevenFive = 5 by decide]
  rw [show dbSevenFive.quiz_results.length = 7 by decide]
  exact h.2.2

/-- C3: `generateQuiz` returns the normal success payload containing the
freshly generated session id regardless of whether the `study_sessions`
insert succeeded; on persistence failure the error is swallowed (the state
is left unchanged) and nothing is thrown. -/
theorem generateQuiz_swallows_insert_failure (db : DB) (topic : String)
    (difficulty : Difficulty) (n : ℚ) (sessionId : String) (insertOk : Bool) :
    (generateQuiz db topic difficulty n sessionId insertOk).2 =
      { sessionId := sessionId
        topic := topic
        difficulty := difficulty
        numberOfQuestions := n
        instruction := genQuizInstruction topic difficulty n } ∧
    (generateQuiz db topic difficulty n sessionId false).1 = db :=
  ⟨rfl, rfl⟩

/-- C5: `saveProgress` returns `{success: true, resultId, message}` exactly
when the insert succeeds and `{success: false, error}` when it fails; an
absent explanation is stored as NULL; and it is the only one of the four
tools that reports persistence failure structurally — the payloads of
`generateQuiz` and `checkAnswer` do not depend on insert success. -/
theorem saveProgress_reports_failure_structurally (db : DB)
    (sid q ua ca : String) (ic : Bool) (ex : Option String) (rid : String)
    (t : String) (d : Difficulty) (n : ℚ) (sid2 q2 sa2 ca2 : String)
    (ic2 : Bool) (rid2 : String) :
    (saveProgress db sid q ua ca ic ex rid true).2 =
      .ok rid "Progress saved successfully" ∧
    (saveProgress db sid q ua ca ic ex rid false).2 =
      .failed "Failed to save progress" ∧
    (saveProgress db sid q ua ca ic ex rid false).1 = db ∧
    (saveProgress db sid q ua ca ic none rid true).1.quiz_results =
      db.quiz_results ++
        [⟨rid, sid, q, ua, ca, if ic then 1 else 0, none⟩] ∧
    (generateQuiz db t d n sid2 true).2 = (generateQuiz db t d n sid2 false).2 ∧
    (checkAnswer db sid2 q2 sa2 ca2 ic2 rid2 true).2 =
      (checkAnswer db sid2 q2 sa2 ca2 ic2 rid2 false).2 :=
  ⟨rfl, rfl, rfl, rfl, rfl, rfl⟩

/-- C9: supplying the empty string as the explanation to `saveProgress` is
indistinguishable from omitting it — `explanation || null` coerces both to
NULL before the insert. -/
theorem saveProgress_empty_explanation_null (db : DB)
    (sid q ua ca : String) (ic : Bool) (rid : String) (insertOk : Bool) :
    saveProgress db sid q ua ca ic (some "") rid insertOk =
      saveProgress db sid q ua ca ic none rid insertOk ∧
    explanationValue (some "") = none := by
  constructor
  · simp [saveProgress, explanationValue]
  · rfl

lemma stepTool_sessions (db : DB) (c : ToolCall) :
    ∃ tl : List SessionRow,
      (stepTool db c).study_sessions = db.study_sessions ++ tl ∧
      tl.length = (if insertsSession c then 1 else 0) := by
  cases c with
  | genQuiz t d n sid ok =>
    cases ok with
    | true => exact ⟨[⟨sid, t⟩], rfl, rfl⟩
    | false => exact ⟨[], by simp [stepTool, generateQuiz, insertsSession]⟩
  | checkAns sid q sa ca ic rid ok =>
    cases ok with
    | true => exact ⟨[], by simp [stepTool, checkAnswer, insertsSession]⟩
    | false => exact ⟨[], by simp [stepTool, checkAnswer, insertsSession]⟩
  | getStats t => exact ⟨[], by simp [stepTool, insertsSession]⟩
  | saveProg sid q ua ca ic ex rid ok =>
    cases ok with
    | true => exact ⟨[], by simp [stepTool, saveProgress, insertsSession]⟩
    | false => exact ⟨[], by simp [stepTool, saveProgress, insertsSession]⟩

lemma stepTool_results (db : DB) (c : ToolCall) :
    ∃ tl : List ResultRow,
      (stepTool db c).quiz_results = db.quiz_results ++ tl ∧
      tl.length = (if insertsResult c then 1 else 0) := by
  cases c with
  | genQuiz t d n sid ok =>
    cases ok with
    | true => exact ⟨[], by simp [stepTool, generateQuiz, insertsResult]⟩
    | false => exact ⟨[], by simp [stepTool, generateQuiz, insertsResult]⟩
  | checkAns sid q sa ca ic rid ok =>
    cases ok with
    | true => exact ⟨[⟨rid, sid, q, sa, ca, if ic then 1 else 0, none⟩], rfl, rfl⟩
    | false => exact ⟨[], by simp [stepTool, checkAnswer, insertsResult]⟩
  | getStats t => exact ⟨[], by simp [stepTool, insertsResult]⟩
  | saveProg sid q ua ca ic ex rid ok =>
    cases ok with
    | true =>
      exact ⟨[⟨rid, sid, q, ua, ca, if ic then 1 else 0, explanationValue ex⟩],
             rfl, rfl⟩
    | false => exact ⟨[], by simp [stepTool, saveProgress, insertsResult]⟩

/-- C2: for every starting state and every sequence of tool invocations,
each table afterwards extends its old contents (the old rows are still
there, unchanged and in order: nothing is ever updated or deleted) and the
row count grows by exactly the number of successful inserts into that
table during the sequence. -/
theorem tools_append_only (db : DB) (cs : List ToolCall) :
    (∃ tl, (runTools db cs).study_sessions = db.study_sessions ++ tl) ∧
    (∃ tl, (runTools db cs).quiz_results = db.quiz_results ++ tl) ∧
    (runTools db cs).study_sessions.length =
      db.study_sessions.length + (cs.filter insertsSession).length ∧
    (runTools db cs).quiz_results.length =
      db.quiz_results.length + (cs.filter insertsResult).length := by
  induction cs generalizing db with
  | nil => exact ⟨⟨[], by simp [runTools]⟩, ⟨[], by simp [runTools]⟩,
      by simp [runTools], by simp [runTools]⟩
  | cons c cs ih =>
    obtain ⟨⟨tls, hs⟩, ⟨tlr, hr⟩, hls, hlr⟩ := ih (stepTool db c)
    obtain ⟨as, has, hals⟩ := stepTool_sessions db c
    obtain ⟨ar, har, halr⟩ := stepTool_results db c
    have hrun : runTools db (c :: cs) = runTools (stepTool db c) cs := rfl
    refine ⟨⟨as ++ tls, ?_⟩, ⟨ar ++ tlr, ?_⟩, ?_, ?_⟩
    · rw [hrun, hs, has, List.append_assoc]
    · rw [hrun, hr, har, List.append_assoc]
    · rw [hrun, hls, has, List.filter_cons]
      simp only [List.length_append, hals]
      cases hc : insertsSession c
      all_goals simp [hc]
      all_goals omega
    · rw [hrun, hlr, har, List.filter_cons]
      simp only [List.length_append, halr]
      cases hc : insertsResult c
      all_goals simp [hc]
      all_goals omega

/-- C4: the topic filter of `getStudyStats` is a case-insensitive substring
match over session topics — any result of a session whose topic contains
the filter (here, both "Python Basics" and "Advanced Python" against
"python") is included in the joined aggregate whose counts become
`topicStats`; and without a topic argument `topicStats` is null. -/
theorem getStudyStats_topic_filter (db : DB) (s1 s2 : SessionRow)
    (r1 r2 : ResultRow)
    (hs1 : s1 ∈ db.study_sessions) (h1t : s1.topic = "Python Basics")
    (hs2 : s2 ∈ db.study_sessions) (h2t : s2.topic = "Advanced Python")
    (hr1 : r1 ∈ db.quiz_results) (hr1s : r1.session_id = s1.id)
    (hr2 : r2 ∈ db.quiz_results) (hr2s : r2.session_id = s2.id) :
    (r1, s1) ∈ topicJoin db "python" ∧ (r2, s2) ∈ topicJoin db "python" ∧
    (∃ ts, (getStudyStats db (some "python")).topicStats = some ts ∧
      ts.totalQuestions = (topicJoin db "python").length ∧
      ts.correctAnswers =
        ((topicJoin db "python").filter fun p => p.1.is_correct == 1).length) ∧
    (getStudyStats db none).topicStats = none := by
  have hmem : ∀ (s : SessionRow) (r : ResultRow), s ∈ db.study_sessions →
      r ∈ db.quiz_results → r.session_id = s.id →
      likeContains "python" s.topic = true → (r, s) ∈ topicJoin db "python" := by
    intro s r hs hrr hrs hlk
    unfold topicJoin
    rw [List.mem_flatMap]
    refine ⟨r, hrr, ?_⟩
    rw [List.mem_map]
    refine ⟨s, ?_, rfl⟩
    rw [List.mem_filter]
    refine ⟨hs, ?_⟩
    rw [hrs, hlk]
    simp
  refine ⟨?_, ?_, ⟨_, rfl, rfl, rfl⟩, rfl⟩
  · exact hmem s1 r1 hs1 hr1 hr1s (by rw [h1t]; decide)
  · exact hmem s2 r2 hs2 hr2 hr2s (by rw [h2t]; decide)

/-- A concrete state for the C4 witness: two sessions, "Python Basics" and
"Advanced Python", each with one quiz result. -/
def dbTwoPython : DB :=
  ⟨[⟨"sB", "Python Basics"⟩, ⟨"sA", "Advanced Python"⟩],
   [⟨"rB", "sB", "q1", "a", "a", 1, none⟩,
    ⟨"rA", "sA", "q2", "b", "c", 0, none⟩]⟩

/-- Witness for C4: on the concrete two-session state, both sessions'
results land in the "python"-scoped join, and the unscoped call reports a
null `topicStats`. -/
theorem getStudyStats_topic_filter_witness :
    (⟨"rB", "sB", "q1", "a", "a", 1, none⟩,
     (⟨"sB", "Python Basics"⟩ : SessionRow)) ∈ topicJoin dbTwoPython "python" ∧
    (⟨"rA", "sA", "q2", "b", "c", 0, none⟩,
     (⟨"sA", "Advanced Python"⟩ : SessionRow)) ∈ topicJoin dbTwoPython "python" ∧
    (getStudyStats dbTwoPython none).topicStats = none := by
  have h := getStudyStats_topic_filter dbTwoPython
    ⟨"sB", "Python Basics"⟩ ⟨"sA", "Advanced Python"⟩
    ⟨"rB", "sB", "q1", "a", "a", 1, none⟩
    ⟨"rA", "sA", "q2", "b", "c", 0, none⟩
    (by decide) rfl (by decide) rfl (by decide) rfl (by decide) rfl
  exact ⟨h.1, h.2.1, h.2.2.2⟩

/-- A state with a single orphaned quiz result: its `session_id` matches no
`study_sessions` row, which the advisory foreign key permits. -/
def dbOrphan : DB := ⟨[], [⟨"r1", "ghost", "q", "a", "a", 1, none⟩]⟩

/-- C10: an orphaned `quiz_results` row is counted in the overall totals
(which query `quiz_results` alone) but never appears in the inner join
behind `topicStats`; consequently on `dbOrphan` the overall total is 1
while the topic-scoped total is 0 for every topic filter. -/
theorem getStudyStats_orphaned_result (db : DB) (r : ResultRow)
    (hr : r ∈ db.quiz_results)
    (horphan : ∀ s ∈ db.study_sessions, s.id ≠ r.session_id) :
    (getStudyStats db none).overall.totalQuestionsAnswered =
      db.quiz_results.length ∧
    0 < (getStudyStats db none).overall.totalQuestionsAnswered ∧
    (∀ (t : String) (s : SessionRow), (r, s) ∉ topicJoin db t) ∧
    (∀ t : String, topicJoin dbOrphan t = []) ∧
    (getStudyStats dbOrphan none).overall.totalQuestionsAnswered = 1 ∧
    (∀ t : String, t ≠ "" →
      (getStudyStats dbOrphan (some t)).topicStats =
        some ⟨t, 0, 0, 0⟩) := by
  have hjoin : ∀ t : String, topicJoin dbOrphan t = [] := by
    intro t
    simp [topicJoin, dbOrphan]
  refine ⟨rfl, List.length_pos.mpr (List.ne_nil_of_mem hr), ?_, hjoin, rfl, ?_⟩
  · intro t s hmem
    unfold topicJoin at hmem
    rw [List.mem_flatMap] at hmem
    obtain ⟨r', _, hmap⟩ := hmem
    rw [List.mem_map] at hmap
    obtain ⟨s', hfil, heq⟩ := hmap
    have hr' : r' = r := congrArg Prod.fst heq
    have hs' : s' = s := congrArg Prod.snd heq
    rw [List.mem_filter] at hfil
    obtain ⟨hsmem, hcond⟩ := hfil
    rw [hs'] at hsmem hcond
    rw [hr'] at hcond
    have hid : r.session_id = s.id :=
      beq_iff_eq.mp ((Bool.and_eq_true _ _).mp hcond).1
    exact horphan s hsmem hid.symm
  · intro t ht
    simp only [getStudyStats, ht, if_false, hjoin t]
    rfl

/-- Witness for C10 at the concrete orphaned state: the single result is
counted overall but the "Python"-scoped aggregate is empty. -/
theorem getStudyStats_orphaned_result_witness :
    (getStudyStats dbOrphan none).overall.totalQuestionsAnswered = 1 ∧
    (getStudyStats dbOrphan (some "Python")).topicStats =
      some ⟨"Python", 0, 0, 0⟩ := by
  have h := getStudyStats_orphaned_result dbOrphan
    ⟨"r1", "ghost", "q", "a", "a", 1, none⟩ (by decide) (by simp [dbOrphan])
  exact ⟨h.2.2.2.2.1, h.2.2.2.2.2 "Python" (by decide)⟩

/-- A raw `generateQuiz` argument object carrying the non-integer question
count 5/2. -/
def rawHalfQuestions : RawGenQuizArgs :=
  ⟨some (.jstr "algebra"), none, some (.jnum (5 / 2))⟩

/-- Counterexample to C6 as stated: the zod schema
`z.number().min(1).max(10)` carries no integrality check, so validation
accepts `numberOfQuestions = 5/2` — a non-integer (denominator 2) — and
`execute` runs on it. -/
theorem validateGenQuiz_accepts_noninteger :
    validateGenQuiz rawHalfQuestions = some ⟨"algebra", .medium, 5 / 2⟩ ∧
    ((5 : ℚ) / 2).den = 2 := by
  constructor
  · have hrange : (1 : ℚ) ≤ 5 / 2 ∧ (5 : ℚ) / 2 ≤ 10 := by norm_num
    simp [validateGenQuiz, rawHalfQuestions, parseDifficultyField,
      parseNumberOfQuestions, hrange]
  · norm_num

/-- C6 as amended: validation runs before `execute` and rejects invalid
input — `topic` must be a string, `difficulty` one of {easy, medium, hard}
defaulting to medium when absent, and `numberOfQuestions` a number in
[1, 10] (not necessarily an integer) defaulting to 5 when absent; whenever
`execute` receives arguments, they satisfy these constraints. -/
lemma parseNumberOfQuestions_sound (v : Option JVal) (n : ℚ)
    (h : parseNumberOfQuestions v = some n) :
    1 ≤ n ∧ n ≤ 10 ∧ (v = none → n = 5) := by
  cases v with
  | none =>
    obtain rfl : (5 : ℚ) = n := Option.some_injective _ h
    exact ⟨by norm_num, by norm_num, fun _ => rfl⟩
  | some jv =>
    cases jv with
    | jnum q =>
      by_cases hq : 1 ≤ q ∧ q ≤ 10
      · simp only [parseNumberOfQuestions] at h
        rw [if_pos hq] at h
        obtain rfl : q = n := Option.some_injective _ h
        exact ⟨hq.1, hq.2, by simp⟩
      · simp only [parseNumberOfQuestions] at h
        rw [if_neg hq] at h
        exact absurd h (by simp)
    | jstr s => exact absurd h (by simp [parseNumberOfQuestions])
    | jbool b => exact absurd h (by simp [parseNumberOfQuestions])
    | jnull => exact absurd h (by simp [parseNumberOfQuestions])

theorem validateGenQuiz_sound (raw : RawGenQuizArgs) (args : GenQuizArgs)
    (h : validateGenQuiz raw = some args) :
    raw.topic = some (.jstr args.topic) ∧
    1 ≤ args.numberOfQuestions ∧ args.numberOfQuestions ≤ 10 ∧
    (raw.difficulty = none → args.difficulty = .medium) ∧
    (raw.numberOfQuestions = none → args.numberOfQuestions = 5) := by
  obtain ⟨topicRaw, diffRaw, numRaw⟩ := raw
  simp only [validateGenQuiz] at h
  cases topicRaw with
  | none => exact absurd h (by simp)
  | some tv =>
    cases tv with
    | jstr t =>
      cases hd : parseDifficultyField diffRaw with
      | none => rw [hd] at h; exact absurd h (by simp)
      | some d =>
        rw [hd] at h
        cases hn : parseNumberOfQuestions numRaw with
        | none => rw [hn] at h; exact absurd h (by simp)
        | some n =>
          rw [hn] at h
          obtain rfl : GenQuizArgs.mk t d n = args := Option.some_injective _ h
          obtain ⟨h1, h2, h5⟩ := parseNumberOfQuestions_sound numRaw n hn
          refine ⟨rfl, h1, h2, ?_, h5⟩
          intro hdn
          have hdn' : diffRaw = none := hdn
          rw [hdn'] at hd
          exact (Option.some_injective _ hd).symm
    | jnum q => exact absurd h (by simp)
    | jbool b => exact absurd h (by simp)
    | jnull => exact absurd h (by simp)

/-- Witness for the amended C6: a fully defaulted call — topic "history",
no difficulty, no question count — validates to medium difficulty and 5
questions, inside the required range. -/
theorem validateGenQuiz_sound_witness :
    validateGenQuiz ⟨some (.jstr "history"), none, none⟩ =
      some ⟨"history", .medium, 5⟩ ∧
    (1 : ℚ) ≤ 5 ∧ (5 : ℚ) ≤ 10 ∧ Difficulty.medium = .medium := by
  have h := validateGenQuiz_sound ⟨some (.jstr "history"), none, none⟩
    ⟨"history", .medium, 5⟩ rfl
  exact ⟨rfl, h.2.1, h.2.2.1, h.2.2.2.1 rfl⟩

lemma runTurn_always_tool (engine : Nat → Option EngineStep)
    (h : ∀ n, ∃ t, engine n = some (.callTool t)) :
    ∀ fuel idx, (runTurn engine fuel idx).1.length = fuel ∧
      (runTurn engine fuel idx).2 = .budgetExhausted := by
  intro fuel
  induction fuel with
  | zero => intro idx; exact ⟨rfl, rfl⟩
  | succ fuel ih =>
    intro idx
    obtain ⟨t, ht⟩ := h idx
    simp only [runTurn, ht]
    exact ⟨by simp [(ih (idx + 1)).1], (ih (idx + 1)).2⟩

/-- C7: when the engine keeps requesting tool calls indefinitely, the turn
executes exactly 10 steps — no step beyond the budget runs — and budget
exhaustion is a normal completion (the model's `TurnEnd` has no error
outcome). -/
theorem turn_stops_at_ten_steps (engine : Nat → Option EngineStep)
    (h : ∀ n, ∃ t, engine n = some (.callTool t)) :
    (onChatMessageSteps engine).1.length = 10 ∧
    (onChatMessageSteps engine).2 = .budgetExhausted :=
  runTurn_always_tool engine h 10 0

/-- Witness for C7: an engine that asks for `generateQuiz` forever is cut
off after exactly 10 executed steps. -/
theorem turn_stops_at_ten_steps_witness :
    (onChatMessageSteps fun _ => some (.callTool "generateQuiz")).1.length = 10 ∧
    (onChatMessageSteps fun _ => some (.callTool "generateQuiz")).2 =
      .budgetExhausted :=
  turn_stops_at_ten_steps (fun _ => some (.callTool "generateQuiz"))
    (fun _ => ⟨"generateQuiz", rfl⟩)

/-- C8: the sanitizer is idempotent — cleaning twice equals cleaning once —
and purely structural: its output is a sublist of its input (no reordering,
no alteration), and every message without an incomplete tool invocation is
kept. -/
theorem cleanupMessages_idempotent (hist : List ChatMsg) :
    cleanupMessages (cleanupMessages hist) = cleanupMessages hist ∧
    List.Sublist (cleanupMessages hist) hist ∧
    ∀ m ∈ hist, msgIncomplete m = false → m ∈ cleanupMessages hist := by
  refine ⟨?_, ?_, ?_⟩
  · simp [cleanupMessages, List.filter_filter]
  · exact List.filter_sublist hist
  · intro m hm hmc
    rw [cleanupMessages, List.mem_filter]
    exact ⟨hm, by simp [hmc]⟩

/-- A concrete history for the C8 witness: a completed exchange followed by
a message holding a tool call that never produced a result. -/
def historyWithDangling : List ChatMsg :=
  [⟨"user", [.text "quiz me on rivers"]⟩,
   ⟨"assistant", [.text "Sure!", .toolCall "call1" true]⟩,
   ⟨"assistant", [.toolCall "call2" false]⟩]

/-- Witness for C8 on the concrete history: sanitizing twice equals
sanitizing once, and the completed user message survives. -/
theorem cleanupMessages_idempotent_witness :
    cleanupMessages (cleanupMessages historyWithDangling) =
      cleanupMessages historyWithDangling ∧
    (⟨"user", [.text "quiz me on rivers"]⟩ : ChatMsg) ∈
      cleanupMessages historyWithDangling := by
  have h := cleanupMessages_idempotent historyWithDangling
  exact ⟨h.1, h.2.2 ⟨"user", [.text "quiz me on rivers"]⟩ (by decide) (by decide)⟩

end StudyBuddy
